import Mathlib

/-!
Verification of the ice-cream parlor point-of-sale domain model
(`src/main.py`, `src/inventory.py`).

The Python classes `Topping`, `IceCreamFlavor`, `Container`, `Portion`,
`Order` and `Shift` are embedded as Lean structures with value semantics.
Python exceptions are embedded as `Except` results; every operation that
can raise returns the error (or `ok`) together with the state as it stands
when the operation finishes — in this code every `raise` happens before any
field assignment, so the error branches return the state unchanged, exactly
as the exception leaves the Python objects.  `datetime.datetime.now()` is
nondeterministic, so each time-stamping operation takes the current instant
as an explicit `Nat` parameter.  Python `int` is unbounded, so prices and
counts are `Int`.
-/

/-- Error kinds.  The Python code raises `ValueError` everywhere; the kinds
below are distinguished by raise site (each carries a distinct message in
the source), matching the specification's error taxonomy. -/
inductive CafeError where
  /-- `Portion.__init__`: "The quantity of scoops should correspond to the
  quantoty of flavors." (balls_count length differs from flavors length). -/
  | invalidComposition
  /-- `Portion.__init__`: "Maximum {max_balls} scoops allowed for
  '{type_name}'." (sum of counts exceeds container capacity). -/
  | capacityExceeded
  /-- `Order.pay`: "Can't pay for an empty order." -/
  | emptyOrder
  /-- `Shift.open`: "Can not reopen a closed shift." -/
  | reopenClosedShift
  /-- `Shift.close`: "Shift is not opened yet." and `Shift.add_order`:
  "Can't add an order to a closed shift." -/
  | shiftNotOpen
deriving DecidableEq, Repr

/-- `Topping` dataclass: a name and a price (src/main.py lines 6-12). -/
structure Topping where
  name : String
  price : Int
deriving DecidableEq, Repr

/-- `IceCreamFlavor` dataclass (src/main.py lines 14-20). -/
structure IceCreamFlavor where
  name : String
  price_per_ball : Int
deriving DecidableEq, Repr

/-- `Container` dataclass (src/main.py lines 22-29). -/
structure Container where
  type_name : String
  max_balls : Int
  base_price : Int := 0
deriving DecidableEq, Repr

/-- The fields a successfully constructed `Portion` stores
(src/main.py lines 38-41). -/
structure Portion where
  flavors : List IceCreamFlavor
  balls_count : List Int
  container : Container
  topping : Option Topping
deriving DecidableEq, Repr

/-- `Portion.__init__` (src/main.py lines 32-41): raises if the two lists
have different lengths, then raises if the counts sum to more than the
container capacity, and otherwise stores the composition. -/
def Portion.init (flavors : List IceCreamFlavor) (balls_count : List Int)
    (container : Container) (topping : Option Topping) :
    Except CafeError Portion :=
  if balls_count.length ≠ flavors.length then
    .error .invalidComposition
  else if balls_count.sum > container.max_balls then
    .error .capacityExceeded
  else
    .ok ⟨flavors, balls_count, container, topping⟩

/-- `Portion.total_price` (src/main.py lines 43-49): container base price,
plus price-per-ball times count over `zip(flavors, balls_count)`, plus the
topping price when a topping is present. -/
def Portion.total_price (p : Portion) : Int :=
  let price := p.container.base_price
  let price := price +
    ((p.flavors.zip p.balls_count).map
      (fun fc => fc.1.price_per_ball * fc.2)).sum
  match p.topping with
  | some t => price + t.price
  | none => price

/-- The pricing formula exactly as the specification words it:
`base_price + Σ(price_per_ball_i × count_i) + topping.price_or_0`. -/
def spec_total_price (flavors : List IceCreamFlavor) (balls_count : List Int)
    (container : Container) (topping : Option Topping) : Int :=
  container.base_price
    + ((flavors.zip balls_count).map
        (fun fc => fc.1.price_per_ball * fc.2)).sum
    + (topping.map Topping.price).getD 0

/-- `Order` state (src/main.py lines 59-67): sequence number, portions,
paid flag, optional payment time. -/
structure Order where
  number : Nat
  portions : List Portion
  paid : Bool
  time_of_payment : Option Nat
deriving DecidableEq, Repr

/-- `Order.__init__` (src/main.py lines 62-67) with the process-wide
counter value passed in explicitly: empty, unpaid, no payment time. -/
def Order.new (number : Nat) : Order :=
  ⟨number, [], false, none⟩

/-- `Order.total_price` (src/main.py lines 69-71). -/
def Order.total_price (o : Order) : Int :=
  (o.portions.map Portion.total_price).sum

/-- `Order.add_portion` (src/main.py lines 73-74): appends. -/
def Order.add_portion (o : Order) (p : Portion) : Order :=
  { o with portions := o.portions ++ [p] }

/-- `Order.pay` (src/main.py lines 76-80): raises on an empty order
(before any mutation), otherwise sets `paid` and stamps the current
instant `t`. -/
def Order.pay (o : Order) (t : Nat) : Except CafeError Unit × Order :=
  if o.portions.isEmpty then
    (.error .emptyOrder, o)
  else
    (.ok (), { o with paid := true, time_of_payment := some t })

/-- `Shift` state (src/main.py lines 88-96). -/
structure Shift where
  number : Nat
  start_time : Option Nat
  end_time : Option Nat
  orders : List Order
deriving DecidableEq, Repr

/-- `Shift.__init__` (src/main.py lines 91-96) with the counter value
passed in explicitly. -/
def Shift.new (number : Nat) : Shift :=
  ⟨number, none, none, []⟩

/-- `Shift.is_open` (src/main.py lines 98-100). -/
def Shift.is_open (s : Shift) : Bool :=
  s.start_time.isSome && s.end_time.isNone

/-- `Shift.revenue` (src/main.py lines 102-104): a total function of the
state, defined in every lifecycle state. -/
def Shift.revenue (s : Shift) : Int :=
  (s.orders.map Order.total_price).sum

/-- `Shift.open` (src/main.py lines 106-112; `open` is reserved in Lean):
no-op when already open, raises when the shift was closed, otherwise
stamps the start time.  The trailing `print` has no state effect. -/
def Shift.open_shift (s : Shift) (t : Nat) : Except CafeError Unit × Shift :=
  if s.is_open then
    (.ok (), s)
  else if s.end_time.isSome then
    (.error .reopenClosedShift, s)
  else
    (.ok (), { s with start_time := some t })

/-- `Shift.close` (src/main.py lines 114-118): raises unless open,
otherwise stamps the end time. -/
def Shift.close (s : Shift) (t : Nat) : Except CafeError Unit × Shift :=
  if !s.is_open then
    (.error .shiftNotOpen, s)
  else
    (.ok (), { s with end_time := some t })

/-- `Shift.add_order` (src/main.py lines 120-125): raises unless open,
then pays the order (whose own raise propagates before any mutation of
the shift), then appends the paid order.  The result carries the order's
state as well, since `order.pay()` mutates the order object. -/
def Shift.add_order (s : Shift) (o : Order) (t : Nat) :
    Except CafeError Unit × Shift × Order :=
  if !s.is_open then
    (.error .shiftNotOpen, s, o)
  else
    match o.pay t with
    | (.error e, o') => (.error e, s, o')
    | (.ok _, o') => (.ok (), { s with orders := s.orders ++ [o'] }, o')

/-- One operator-driven operation on a shift, with the instant at which
it happens. -/
inductive ShiftOp where
  | opOpen (t : Nat)
  | opClose (t : Nat)
  | opAddOrder (o : Order) (t : Nat)
deriving DecidableEq, Repr

/-- The shift state after one operation (errors are caught by the CLI
loop and leave the state as the operation left it). -/
def ShiftOp.apply (s : Shift) : ShiftOp → Shift
  | .opOpen t => (s.open_shift t).2
  | .opClose t => (s.close t).2
  | .opAddOrder o t => (s.add_order o t).2.1

/-- The shift state after a sequence of operations. -/
def Shift.run (s : Shift) : List ShiftOp → Shift
  | [] => s
  | op :: ops => Shift.run (op.apply s) ops

/-- The price contributed by one operation: the order's total when the
operation is an `add_order` that succeeds, and 0 otherwise. -/
def addContribution (s : Shift) : ShiftOp → Int
  | .opAddOrder o t =>
    match (s.add_order o t).1 with
    | .ok _ => o.total_price
    | .error _ => 0
  | _ => 0

/-- The summed total price of the orders successfully added during a
sequence of operations. -/
def Shift.addedTotal (s : Shift) : List ShiftOp → Int
  | [] => 0
  | op :: ops => addContribution s op + Shift.addedTotal (op.apply s) ops

/-- An order is paid with a non-null payment timestamp. -/
def Order.isPaidStamped (o : Order) : Bool :=
  o.paid && o.time_of_payment.isSome

/-- Every order held by the shift is paid with a non-null timestamp. -/
def Shift.allPaid (s : Shift) : Bool :=
  s.orders.all Order.isPaidStamped

/-! ## Catalog file parsing (`src/inventory.py`) -/

/-- Python `str.strip()` whitespace test, for ASCII input. -/
def isPySpace (c : Char) : Bool :=
  c = ' ' || c = '\t' || c = '\n' || c = '\x0b' || c = '\x0c' || c = '\r'

/-- Python `line.strip()` / `part.strip()`, for ASCII input. -/
def pyStrip (s : String) : String :=
  ⟨((s.data.dropWhile isPySpace).reverse.dropWhile isPySpace).reverse⟩

/-- Python `part.strip('"')`: removes every leading and trailing
double-quote character. -/
def pyStripQuote (s : String) : String :=
  ⟨((s.data.dropWhile (· = '"')).reverse.dropWhile (· = '"')).reverse⟩

/-- Value of the digit character `c`. -/
def digitVal (c : Char) : Nat :=
  c.toNat - '0'.toNat

/-- Digits of a Python integer literal after the first one: decimal
digits, with single underscores allowed between digits. -/
def pyDigitsAux (acc : Nat) : List Char → Option Nat
  | [] => some acc
  | '_' :: c :: cs =>
    if c.isDigit then pyDigitsAux (acc * 10 + digitVal c) cs else none
  | c :: cs =>
    if c.isDigit then pyDigitsAux (acc * 10 + digitVal c) cs else none

/-- Python `int(s)` for ASCII decimal input: strips whitespace, accepts an
optional sign followed by digits (single underscores allowed between
digits); `none` models the `ValueError` it raises otherwise. -/
def pyInt (s : String) : Option Int :=
  match (pyStrip s).data with
  | '-' :: c :: cs =>
    if c.isDigit then (pyDigitsAux (digitVal c) cs).map (fun n => -(n : Int))
    else none
  | '+' :: c :: cs =>
    if c.isDigit then (pyDigitsAux (digitVal c) cs).map (fun n => (n : Int))
    else none
  | c :: cs =>
    if c.isDigit then (pyDigitsAux (digitVal c) cs).map (fun n => (n : Int))
    else none
  | [] => none

/-- The inner loop of `read_file` over the fields after the first:
`int(part.strip())` on each; `none` when any raises. -/
def parseInts : List String → Option (List Int)
  | [] => some []
  | p :: ps =>
    match pyInt p, parseInts ps with
    | some n, some ns => some (n :: ns)
    | _, _ => none

/-- Python `s.split(',')` on a character list: splits at every comma,
keeping empty fields, so the result is always non-empty. -/
def splitCommaAux (cur : List Char) : List Char → List (List Char)
  | [] => [cur.reverse]
  | c :: cs =>
    if c = ',' then cur.reverse :: splitCommaAux [] cs
    else splitCommaAux (c :: cur) cs

/-- Python `s.split(',')`. -/
def pySplitComma (s : String) : List String :=
  (splitCommaAux [] s.data).map (fun cs => ⟨cs⟩)

/-- One iteration of the `for line in f` loop (src/inventory.py lines
5-13): strip the line, split on commas, strip quotes from field 0, parse
the remaining fields as integers; `none` when a field fails to parse. -/
def parseLine (line : String) : Option (String × List Int) :=
  match pySplitComma (pyStrip line) with
  | [] => none
  | p0 :: rest => (parseInts rest).map (fun ns => (pyStripQuote p0, ns))

/-- The whole loop: `none` as soon as any line raises, since the
exception aborts the loop and the list built so far is discarded. -/
def parseAll : List String → Option (List (String × List Int))
  | [] => some []
  | l :: ls =>
    match parseLine l, parseAll ls with
    | some t, some ts => some (t :: ts)
    | _, _ => none

/-- `read_file` (src/inventory.py lines 1-20).  The file is `none` when
absent (`FileNotFoundError`) and `some lines` otherwise; a missing file
or any exception while parsing yields the empty list. -/
def read_file (file : Option (List String)) : List (String × List Int) :=
  match file with
  | none => []
  | some lines =>
    match parseAll lines with
    | some ts => ts
    | none => []

/-! ## Theorems -/

/-- C2: for every validly constructed Portion, `total_price` equals
`container.base_price` plus the sum over its lines of
`flavor.price_per_ball` times that line's ball count, plus the topping
price when a topping is present and 0 otherwise.  The computation is a
pure total function of the portion, hence deterministic, side-effect
free, and exact integer arithmetic. -/
theorem C2_total_price_formula (flavors : List IceCreamFlavor)
    (balls_count : List Int) (container : Container)
    (topping : Option Topping) (p : Portion)
    (h : Portion.init flavors balls_count container topping = .ok p) :
    p.total_price = spec_total_price flavors balls_count container topping := by
  unfold Portion.init at h
  split at h
  · simp at h
  · split at h
    · simp at h
    · injection h with h
      subst h
      unfold Portion.total_price spec_total_price
      cases topping <;> simp

/-- C2 witness: the specification's worked example — base 50, flavor A at
80 per ball times 2 balls, flavor B at 100 per ball times 1 ball, topping
30 — prices to 340. -/
theorem C2_total_price_formula_witness :
    Portion.init [⟨"A", 80⟩, ⟨"B", 100⟩] [2, 1] ⟨"cup", 3, 50⟩
        (some ⟨"caramel", 30⟩)
      = .ok ⟨[⟨"A", 80⟩, ⟨"B", 100⟩], [2, 1], ⟨"cup", 3, 50⟩,
          some ⟨"caramel", 30⟩⟩
    ∧ (⟨[⟨"A", 80⟩, ⟨"B", 100⟩], [2, 1], ⟨"cup", 3, 50⟩,
          some ⟨"caramel", 30⟩⟩ : Portion).total_price
        = spec_total_price [⟨"A", 80⟩, ⟨"B", 100⟩] [2, 1] ⟨"cup", 3, 50⟩
            (some ⟨"caramel", 30⟩)
    ∧ (⟨[⟨"A", 80⟩, ⟨"B", 100⟩], [2, 1], ⟨"cup", 3, 50⟩,
          some ⟨"caramel", 30⟩⟩ : Portion).total_price = 340 :=
  ⟨rfl, C2_total_price_formula _ _ _ _ _ rfl, rfl⟩

/-- C8: whenever the length of `balls_count` differs from the length of
`flavors`, construction fails with the composition error, regardless of
what the counts sum to. -/
theorem C8_length_mismatch (flavors : List IceCreamFlavor)
    (balls_count : List Int) (container : Container)
    (topping : Option Topping)
    (h : balls_count.length ≠ flavors.length) :
    Portion.init flavors balls_count container topping
      = .error .invalidComposition := by
  unfold Portion.init
  simp [h]

/-- C8 witness: two counts against one flavor fail with the composition
error even though the counts fit the capacity. -/
theorem C8_length_mismatch_witness :
    ([1, 1] : List Int).length ≠ ([⟨"vanilla", 80⟩] : List IceCreamFlavor).length
    ∧ Portion.init [⟨"vanilla", 80⟩] [1, 1] ⟨"cone", 5, 0⟩ none
        = .error .invalidComposition :=
  ⟨by decide, C8_length_mismatch _ _ _ _ (by decide)⟩

/-- C1 counterexample: the constructor accepts an empty composition and a
zero ball count — both of which the claim says must fail with
InvalidCompositionError.  `Portion.__init__` only checks the two list
lengths against each other and the sum against the capacity. -/
theorem C1_counterexample :
    Portion.init [] [] ⟨"cup", 2, 30⟩ none
      = .ok ⟨[], [], ⟨"cup", 2, 30⟩, none⟩
    ∧ Portion.init [⟨"vanilla", 80⟩] [0] ⟨"cup", 2, 30⟩ none
      = .ok ⟨[⟨"vanilla", 80⟩], [0], ⟨"cup", 2, 30⟩, none⟩ :=
  ⟨rfl, rfl⟩

/-- C1 amended: for equal-length lists (a list of pairs), construction
succeeds iff `Σcounts ≤ container.max_balls`, and fails with
CapacityExceededError when the sum exceeds the capacity; emptiness and
non-positive counts are not validated. -/
theorem C1_amended_validation (flavors : List IceCreamFlavor)
    (balls_count : List Int) (container : Container)
    (topping : Option Topping)
    (hlen : balls_count.length = flavors.length) :
    ((Portion.init flavors balls_count container topping
        = .ok ⟨flavors, balls_count, container, topping⟩)
      ↔ balls_count.sum ≤ container.max_balls)
    ∧ (container.max_balls < balls_count.sum →
        Portion.init flavors balls_count container topping
          = .error .capacityExceeded) := by
  unfold Portion.init
  by_cases hc : balls_count.sum ≤ container.max_balls
  · simp [hlen, hc, not_lt.mpr hc]
  · simp only [not_le] at hc
    simp [hlen, hc, not_le.mpr hc]

/-- C1 amended witness: one flavor, two balls, capacity three succeeds;
capacity exceeded on a one-ball container fails with the capacity
error. -/
theorem C1_amended_validation_witness :
    (([2] : List Int).length = ([⟨"vanilla", 80⟩] : List IceCreamFlavor).length)
    ∧ ((Portion.init [⟨"vanilla", 80⟩] [2] ⟨"cup", 3, 50⟩ none
        = .ok ⟨[⟨"vanilla", 80⟩], [2], ⟨"cup", 3, 50⟩, none⟩)
      ↔ ([2] : List Int).sum ≤ (3 : Int))
    ∧ ((1 : Int) < ([2] : List Int).sum →
        Portion.init [⟨"vanilla", 80⟩] [2] ⟨"cone", 1, 0⟩ none
          = .error .capacityExceeded) :=
  ⟨by decide,
   (C1_amended_validation [⟨"vanilla", 80⟩] [2] ⟨"cup", 3, 50⟩ none (by decide)).1,
   (C1_amended_validation [⟨"vanilla", 80⟩] [2] ⟨"cone", 1, 0⟩ none (by decide)).2⟩

/-- C3 counterexample: `pay` on a one-portion order succeeds, and then a
second call succeeds again, re-stamping the payment time — so it does not
succeed "exactly once". -/
theorem C3_counterexample :
    (Order.pay ⟨1, [⟨[⟨"vanilla", 80⟩], [1], ⟨"cup", 2, 30⟩, none⟩],
        false, none⟩ 5).1 = .ok ()
    ∧ (Order.pay (Order.pay ⟨1, [⟨[⟨"vanilla", 80⟩], [1], ⟨"cup", 2, 30⟩,
        none⟩], false, none⟩ 5).2 9).1 = .ok ()
    ∧ (Order.pay (Order.pay ⟨1, [⟨[⟨"vanilla", 80⟩], [1], ⟨"cup", 2, 30⟩,
        none⟩], false, none⟩ 5).2 9).2.time_of_payment = some 9 :=
  ⟨rfl, rfl, rfl⟩

/-- C3 amended: `pay` on an order with zero portions fails with
EmptyOrderError and changes nothing; on an order with at least one
portion every call succeeds (also a repeated one, which re-stamps the
time), setting `paid = true` and recording the given instant as the
non-null payment timestamp. -/
theorem C3_amended_pay (o : Order) (t : Nat) :
    (o.portions = [] → o.pay t = (.error .emptyOrder, o))
    ∧ (o.portions ≠ [] →
        o.pay t = (.ok (), { o with paid := true, time_of_payment := some t })) := by
  constructor <;> intro h <;> unfold Order.pay <;>
    simp [List.isEmpty_iff, h]

/-- C3 amended witness: a fresh order fails to pay; a one-portion order
pays, with `paid` set and the timestamp recorded. -/
theorem C3_amended_pay_witness :
    ((Order.new 4).portions = [])
    ∧ (Order.new 4).pay 7 = (.error .emptyOrder, Order.new 4)
    ∧ ((⟨6, [⟨[⟨"vanilla", 80⟩], [1], ⟨"cup", 2, 30⟩, none⟩], false,
        none⟩ : Order).portions ≠ [])
    ∧ (⟨6, [⟨[⟨"vanilla", 80⟩], [1], ⟨"cup", 2, 30⟩, none⟩], false,
        none⟩ : Order).pay 7
      = (.ok (), ⟨6, [⟨[⟨"vanilla", 80⟩], [1], ⟨"cup", 2, 30⟩, none⟩],
          true, some 7⟩) :=
  ⟨rfl, (C3_amended_pay (Order.new 4) 7).1 rfl, by decide,
   (C3_amended_pay _ 7).2 (by decide)⟩

/-- C6: `add_order` fails with ShiftNotOpenError (leaving everything as
it was) unless the shift is open; when it succeeds on an open shift, it
pays the order exactly as `Order.pay` does and appends that paid order to
the shift's order sequence. -/
theorem C6_add_order_pays_then_appends (s : Shift) (o : Order) (t : Nat) :
    (s.is_open = false → s.add_order o t = (.error .shiftNotOpen, s, o))
    ∧ (s.is_open = true → o.portions ≠ [] →
        (o.pay t).1 = .ok ()
        ∧ s.add_order o t
          = (.ok (), { s with orders := s.orders ++ [(o.pay t).2] },
              (o.pay t).2)) := by
  constructor
  · intro h
    unfold Shift.add_order
    simp [h]
  · intro hs hp
    have hpay :
        o.pay t = (.ok (), { o with paid := true, time_of_payment := some t }) := by
      unfold Order.pay
      simp [List.isEmpty_iff, hp]
    refine ⟨by rw [hpay], ?_⟩
    unfold Shift.add_order
    rw [hpay]
    simp [hs]

/-- C6 witness: adding a one-portion order to an open shift pays it and
appends it; adding to an unopened shift fails. -/
theorem C6_add_order_witness :
    ((Shift.new 2).is_open = false)
    ∧ (Shift.new 2).add_order (Order.new 4) 3
      = (.error .shiftNotOpen, Shift.new 2, Order.new 4)
    ∧ ((⟨2, some 1, none, []⟩ : Shift).is_open = true)
    ∧ ((⟨6, [⟨[⟨"vanilla", 80⟩], [1], ⟨"cup", 2, 30⟩, none⟩], false,
        none⟩ : Order).portions ≠ [])
    ∧ ((⟨6, [⟨[⟨"vanilla", 80⟩], [1], ⟨"cup", 2, 30⟩, none⟩], false,
        none⟩ : Order).pay 3).1 = .ok ()
    ∧ (⟨2, some 1, none, []⟩ : Shift).add_order
        ⟨6, [⟨[⟨"vanilla", 80⟩], [1], ⟨"cup", 2, 30⟩, none⟩], false, none⟩ 3
      = (.ok (),
         ⟨2, some 1, none, [⟨6, [⟨[⟨"vanilla", 80⟩], [1],
            ⟨"cup", 2, 30⟩, none⟩], true, some 3⟩]⟩,
         ⟨6, [⟨[⟨"vanilla", 80⟩], [1], ⟨"cup", 2, 30⟩, none⟩], true,
            some 3⟩) :=
  ⟨rfl, (C6_add_order_pays_then_appends (Shift.new 2) (Order.new 4) 3).1 rfl,
   rfl, by decide,
   ((C6_add_order_pays_then_appends ⟨2, some 1, none, []⟩ _ 3).2 rfl
      (by decide)).1,
   by
     have h := ((C6_add_order_pays_then_appends ⟨2, some 1, none, []⟩
       ⟨6, [⟨[⟨"vanilla", 80⟩], [1], ⟨"cup", 2, 30⟩, none⟩], false, none⟩
       3).2 rfl (by decide)).2
     exact h⟩

/-- C10: on an open shift, adding an order with zero portions propagates
the `pay` failure (EmptyOrderError) and leaves the shift's order sequence
and the order's `paid` flag and payment timestamp exactly as they were;
the unpaid order is not appended. -/
theorem C10_add_order_error_atomic (s : Shift) (o : Order) (t : Nat)
    (hopen : s.is_open = true) (hempty : o.portions = []) :
    s.add_order o t = (.error .emptyOrder, s, o) := by
  unfold Shift.add_order Order.pay
  simp [hopen, hempty]

/-- C10 witness: a fresh (empty, unpaid) order on an open shift. -/
theorem C10_add_order_error_atomic_witness :
    ((⟨2, some 1, none, []⟩ : Shift).is_open = true)
    ∧ ((Order.new 4).portions = [])
    ∧ (⟨2, some 1, none, []⟩ : Shift).add_order (Order.new 4) 3
      = (.error .emptyOrder, ⟨2, some 1, none, []⟩, Order.new 4) :=
  ⟨rfl, rfl,
   C10_add_order_error_atomic ⟨2, some 1, none, []⟩ (Order.new 4) 3 rfl rfl⟩

/-- If any line of the file fails to parse, the whole loop aborts with the
exception, discarding the list built so far. -/
theorem parseAll_eq_none {lines : List String} {l : String}
    (hl : l ∈ lines) (h : parseLine l = none) : parseAll lines = none := by
  induction lines with
  | nil => cases hl
  | cons x xs ih =>
    cases hl with
    | head => simp [parseAll, h]
    | tail _ hmem =>
      unfold parseAll
      rw [ih hmem]
      cases parseLine x <;> simp

/-- C9: `read_file` returns the empty list for that category whenever the
catalog file is absent or any of its lines fails to parse, rather than
a fatal error. -/
theorem C9_read_file_degrades (file : Option (List String)) :
    (file = none → read_file file = [])
    ∧ (∀ lines, file = some lines → (∃ l ∈ lines, parseLine l = none) →
        read_file file = []) := by
  constructor
  · intro h
    subst h
    rfl
  · rintro lines rfl ⟨l, hl, hparse⟩
    show (match parseAll lines with
      | some ts => ts
      | none => []) = []
    rw [parseAll_eq_none hl hparse]

/-- C9 witness: the absent file, and a file whose second field is not an
integer, both yield the empty catalog. -/
theorem C9_read_file_degrades_witness :
    read_file none = []
    ∧ parseLine "\"chocolate\", abc" = none
    ∧ read_file (some ["\"chocolate\", abc"]) = [] :=
  ⟨(C9_read_file_degrades none).1 rfl, rfl,
   (C9_read_file_degrades (some ["\"chocolate\", abc"])).2 _ rfl
     ⟨"\"chocolate\", abc", List.mem_singleton.mpr rfl, rfl⟩⟩

/-- Paying an order never changes its portions, hence never its total
price. -/
theorem pay_total_price (o : Order) (t : Nat) :
    ((o.pay t).2).total_price = o.total_price := by
  unfold Order.pay
  split <;> simp [Order.total_price]

/-- Revenue after one operation: unchanged, except that a successful
`add_order` adds the order's total price. -/
theorem revenue_apply (s : Shift) (op : ShiftOp) :
    (op.apply s).revenue = s.revenue + addContribution s op := by
  cases op with
  | opOpen t =>
    show (s.open_shift t).2.revenue = s.revenue + 0
    unfold Shift.open_shift
    split
    · simp
    · split
      · simp
      · simp [Shift.revenue]
  | opClose t =>
    show (s.close t).2.revenue = s.revenue + 0
    unfold Shift.close
    split
    · simp
    · simp [Shift.revenue]
  | opAddOrder o t =>
    show (s.add_order o t).2.1.revenue
        = s.revenue + addContribution s (.opAddOrder o t)
    by_cases hs : s.is_open
    · rcases hp : o.pay t with ⟨r, o'⟩
      cases r with
      | error e =>
        have hadd : s.add_order o t = (.error e, s, o') := by
          unfold Shift.add_order
          rw [hp]
          simp [hs]
        simp [addContribution, hadd]
      | ok u =>
        have hadd :
            s.add_order o t
              = (.ok (), { s with orders := s.orders ++ [o'] }, o') := by
          unfold Shift.add_order
          rw [hp]
          simp [hs]
        have ho' : o'.total_price = o.total_price := by
          have h := pay_total_price o t
          rw [hp] at h
          exact h
        simp [addContribution, hadd, Shift.revenue, ho']
    · have hadd : s.add_order o t = (.error .shiftNotOpen, s, o) := by
        unfold Shift.add_order
        simp [hs]
      simp [addContribution, hadd]

/-- C4: revenue is 0 for a shift holding no orders, and after any
sequence of operations (in any lifecycle state — `revenue` is a total
function, so it never fails) it equals the starting revenue plus the
summed total price of the orders successfully added via `add_order`. -/
theorem C4_revenue_sum (s : Shift) (ops : List ShiftOp) :
    (s.orders = [] → s.revenue = 0)
    ∧ (s.run ops).revenue = s.revenue + s.addedTotal ops := by
  constructor
  · intro h
    simp [Shift.revenue, h]
  · induction ops generalizing s with
    | nil => simp [Shift.run, Shift.addedTotal]
    | cons op ops ih =>
      unfold Shift.run Shift.addedTotal
      rw [ih (op.apply s), revenue_apply]
      ring

/-- C4 witness: the specification's end-to-end scenario — open a shift,
add one order (cup base 30, one flavor at 50 per ball, 2 balls), close —
ends with revenue 130. -/
theorem C4_revenue_sum_witness :
    ((Shift.new 1).orders = [])
    ∧ (Shift.new 1).revenue = 0
    ∧ ((Shift.new 1).run
        [.opOpen 1,
         .opAddOrder ⟨5, [⟨[⟨"strawberry", 50⟩], [2], ⟨"cup", 2, 30⟩,
            none⟩], false, none⟩ 2,
         .opClose 3]).revenue
      = (Shift.new 1).revenue + (Shift.new 1).addedTotal
        [.opOpen 1,
         .opAddOrder ⟨5, [⟨[⟨"strawberry", 50⟩], [2], ⟨"cup", 2, 30⟩,
            none⟩], false, none⟩ 2,
         .opClose 3]
    ∧ ((Shift.new 1).run
        [.opOpen 1,
         .opAddOrder ⟨5, [⟨[⟨"strawberry", 50⟩], [2], ⟨"cup", 2, 30⟩,
            none⟩], false, none⟩ 2,
         .opClose 3]).revenue = 130 :=
  ⟨rfl, (C4_revenue_sum (Shift.new 1) []).1 rfl,
   (C4_revenue_sum (Shift.new 1) _).2, rfl⟩

/-- A shift whose end time is set is not open. -/
theorem is_open_false_of_closed (s : Shift)
    (h : s.end_time.isSome = true) : s.is_open = false := by
  obtain ⟨e, he⟩ := Option.isSome_iff_exists.mp h
  simp [Shift.is_open, he]

/-- A closed shift is inert: every operation raises and leaves its state
unchanged. -/
theorem closed_apply (s : Shift) (op : ShiftOp)
    (h : s.end_time.isSome = true) : op.apply s = s := by
  have hno : s.is_open = false := is_open_false_of_closed s h
  cases op with
  | opOpen t =>
    show (s.open_shift t).2 = s
    unfold Shift.open_shift
    simp [hno, h]
  | opClose t =>
    show (s.close t).2 = s
    unfold Shift.close
    simp [hno]
  | opAddOrder o t =>
    show (s.add_order o t).2.1 = s
    unfold Shift.add_order
    simp [hno]

/-- A closed shift stays exactly as it is under any sequence of
operations. -/
theorem run_closed (ops : List ShiftOp) (s : Shift)
    (h : s.end_time.isSome = true) : s.run ops = s := by
  induction ops generalizing s with
  | nil => rfl
  | cons op ops ih =>
    show (op.apply s).run ops = s
    rw [closed_apply s op h]
    exact ih s h

/-- C5: the lifecycle is UNOPENED → OPEN → CLOSED with CLOSED terminal —
`close` before `open` fails; `open` on a shift with an end time set fails
with ReopenClosedShiftError; `open` while already open is a no-op that
leaves the state (hence the start time) unchanged; and once the end time
is set, no sequence of operations ever makes the shift open again. -/
theorem C5_shift_lifecycle :
    (∀ (s : Shift) (t : Nat), s.start_time = none → s.end_time = none →
      s.close t = (.error .shiftNotOpen, s))
    ∧ (∀ (s : Shift) (t : Nat), s.end_time.isSome = true →
      s.open_shift t = (.error .reopenClosedShift, s))
    ∧ (∀ (s : Shift) (t : Nat), s.is_open = true →
      s.open_shift t = (.ok (), s))
    ∧ (∀ (s : Shift) (ops : List ShiftOp), s.end_time.isSome = true →
      (s.run ops).end_time.isSome = true ∧ (s.run ops).is_open = false) := by
  refine ⟨?_, ?_, ?_, ?_⟩
  · intro s t h1 h2
    have hno : s.is_open = false := by simp [Shift.is_open, h1]
    unfold Shift.close
    simp [hno]
  · intro s t h
    have hno : s.is_open = false := is_open_false_of_closed s h
    unfold Shift.open_shift
    simp [hno, h]
  · intro s t h
    unfold Shift.open_shift
    simp [h]
  · intro s ops h
    rw [run_closed ops s h]
    exact ⟨h, is_open_false_of_closed s h⟩

/-- C5 witness: a fresh shift refuses to close; a closed shift refuses to
open and stays closed across further operations; an open shift's `open`
is a no-op. -/
theorem C5_shift_lifecycle_witness :
    ((Shift.new 3).start_time = none)
    ∧ ((Shift.new 3).end_time = none)
    ∧ (Shift.new 3).close 5 = (.error .shiftNotOpen, Shift.new 3)
    ∧ ((⟨3, some 0, some 1, []⟩ : Shift).end_time.isSome = true)
    ∧ (⟨3, some 0, some 1, []⟩ : Shift).open_shift 5
        = (.error .reopenClosedShift, ⟨3, some 0, some 1, []⟩)
    ∧ ((⟨3, some 0, none, []⟩ : Shift).is_open = true)
    ∧ (⟨3, some 0, none, []⟩ : Shift).open_shift 5
        = (.ok (), ⟨3, some 0, none, []⟩)
    ∧ (((⟨3, some 0, some 1, []⟩ : Shift).run
          [.opOpen 7, .opClose 8]).is_open = false) :=
  ⟨rfl, rfl, C5_shift_lifecycle.1 (Shift.new 3) 5 rfl rfl,
   rfl, C5_shift_lifecycle.2.1 ⟨3, some 0, some 1, []⟩ 5 rfl,
   rfl, C5_shift_lifecycle.2.2.1 ⟨3, some 0, none, []⟩ 5 rfl,
   (C5_shift_lifecycle.2.2.2 ⟨3, some 0, some 1, []⟩
      [.opOpen 7, .opClose 8] rfl).2⟩

/-- A successful `pay` leaves the order paid with a non-null
timestamp. -/
theorem pay_ok_stamped (o : Order) (t : Nat) (u : Unit) (o' : Order)
    (hp : o.pay t = (.ok u, o')) : o'.isPaidStamped = true := by
  unfold Order.pay at hp
  split at hp
  · simp at hp
  · rw [Prod.mk.injEq] at hp
    rw [← hp.2]
    rfl

/-- One operation preserves "all held orders are paid and stamped". -/
theorem allPaid_apply (s : Shift) (op : ShiftOp) (h : s.allPaid = true) :
    (op.apply s).allPaid = true := by
  cases op with
  | opOpen t =>
    show (s.open_shift t).2.allPaid = true
    unfold Shift.open_shift
    split
    · exact h
    · split
      · exact h
      · exact h
  | opClose t =>
    show (s.close t).2.allPaid = true
    unfold Shift.close
    split
    · exact h
    · exact h
  | opAddOrder o t =>
    show (s.add_order o t).2.1.allPaid = true
    by_cases hs : s.is_open
    · rcases hp : o.pay t with ⟨r, o'⟩
      cases r with
      | error e =>
        have hadd : s.add_order o t = (.error e, s, o') := by
          unfold Shift.add_order
          rw [hp]
          simp [hs]
        rw [hadd]
        exact h
      | ok u =>
        have hadd :
            s.add_order o t
              = (.ok (), { s with orders := s.orders ++ [o'] }, o') := by
          unfold Shift.add_order
          rw [hp]
          simp [hs]
        have ho' : o'.isPaidStamped = true := pay_ok_stamped o t u o' hp
        rw [hadd]
        show (s.orders ++ [o']).all Order.isPaidStamped = true
        unfold Shift.allPaid at h
        simp [List.all_append, h, ho']
    · have hadd : s.add_order o t = (.error .shiftNotOpen, s, o) := by
        unfold Shift.add_order
        simp [hs]
      rw [hadd]
      exact h

/-- C7: a freshly constructed shift holds only paid orders (vacuously),
and every sequence of shift operations preserves the invariant that
every order in the shift's order sequence has `paid = true` and a
non-null payment timestamp — so it holds in every reachable state. -/
theorem C7_orders_all_paid :
    (∀ n : Nat, (Shift.new n).allPaid = true)
    ∧ (∀ (s : Shift) (ops : List ShiftOp), s.allPaid = true →
        (s.run ops).allPaid = true) := by
  constructor
  · intro n
    rfl
  · intro s ops
    induction ops generalizing s with
    | nil =>
      intro h
      exact h
    | cons op ops ih =>
      intro h
      exact ih (op.apply s) (allPaid_apply s op h)

/-- C7 witness: the invariant holds after opening a shift and adding a
one-portion order. -/
theorem C7_orders_all_paid_witness :
    ((Shift.new 1).allPaid = true)
    ∧ (((Shift.new 1).run
        [.opOpen 1,
         .opAddOrder ⟨5, [⟨[⟨"strawberry", 50⟩], [2], ⟨"cup", 2, 30⟩,
            none⟩], false, none⟩ 2,
         .opClose 3]).allPaid = true) :=
  ⟨C7_orders_all_paid.1 1, C7_orders_all_paid.2 (Shift.new 1) _ rfl⟩
